import Mathlib

/-!
Verification of the incremental-fetch timestamp cursor subsystem of the
clawstr command-line client.

The development shallowly embeds the cursor subsystem:
  * `src/lib/store.ts` — the persistent key/value store backed by a single
    on-disk table, with a lazily (re)opened connection (`getDb`, `kvGet`,
    `kvSet`, `kvDelete`, `closeStore`) and the typed timestamp accessors
    (`getLatestTimestamp`, `setLatestTimestamp`, `getLastSeenTimestamp`,
    `setLastSeenTimestamp`, `updateLastSeenTimestamp`);
  * `src/lib/timestamp.ts` — `resolveTimestampParam` and
    `trackLatestTimestamp` (the file packs two revisions of the module; the
    current revision, which writes `last_seen_timestamp`, is embedded as
    `trackLatestTimestamp`, and the legacy revision, which wrote
    `latest_timestamp`, as `trackLatestTimestampLegacy`);
  * the cursor-relevant behaviour of the `timestamp` command
    (`--rollforward`, `reset`, `--json` inspection) and of the four polling
    commands (notifications, recent, show subclaw feed, search).

JavaScript numbers that can arise here are either NaN (from `parseInt`) or
integers; they are embedded as `JsNum`.  Integer arithmetic is embedded
exactly (the values involved are unix seconds, far below 2^53, so JS floats
are exact on them).  The on-disk table is embedded as an association list
of string keys and string values, together with the open/closed state of
the process-wide connection; durability across a close/reopen cycle is the
statement that the data part of the state is untouched by `closeStore` and
that a subsequent access transparently reopens.
-/

/-- Embedding of the JavaScript numbers reachable in the cursor code:
either NaN or an exact integer. -/
inductive JsNum where
  | nan : JsNum
  | int (n : Int) : JsNum
deriving DecidableEq, Repr

/-- Embedding of JavaScript addition on the reachable numbers. -/
def jsAdd : JsNum → JsNum → JsNum
  | JsNum.nan, _ => JsNum.nan
  | _, JsNum.nan => JsNum.nan
  | JsNum.int a, JsNum.int b => JsNum.int (a + b)

/-- Embedding of the JavaScript strict-greater comparison: any comparison
with NaN is false. -/
def jsGt : JsNum → JsNum → Bool
  | JsNum.nan, _ => false
  | _, JsNum.nan => false
  | JsNum.int a, JsNum.int b => decide (b < a)

/-- Characters stripped by `parseInt` before parsing (the JavaScript
StrWhiteSpace characters that can appear in ordinary input). -/
def isWsChar (c : Char) : Bool :=
  c = ' ' || c = '\t' || c = '\n' || c = '\r' || c = '\x0b' || c = '\x0c' ||
    c = '\u00A0' || c = '\uFEFF'

/-- Value of a big-endian list of decimal digit characters. -/
def digitsToNat (ds : List Char) : Nat :=
  ds.foldl (fun a c => a * 10 + (c.toNat - 48)) 0

/-- Embedding of the digit-consuming part of `parseInt(s, 10)`: the longest
leading run of decimal digits is taken; no digit at all means NaN. -/
def parseDigits (cs : List Char) : JsNum :=
  let ds := cs.takeWhile Char.isDigit
  if ds.isEmpty then JsNum.nan else JsNum.int (Int.ofNat (digitsToNat ds))

/-- Embedding of `parseInt(s, 10)` after whitespace stripping: an optional
single sign followed by the longest run of decimal digits. -/
def parseSigned : List Char → JsNum
  | [] => JsNum.nan
  | c :: rest =>
    if c = '-' then
      match parseDigits rest with
      | JsNum.nan => JsNum.nan
      | JsNum.int v => JsNum.int (-v)
    else if c = '+' then parseDigits rest
    else parseDigits (c :: rest)

/-- Embedding of `parseInt(value, 10)` as used throughout the cursor code:
strip leading whitespace, then parse an optionally signed run of decimal
digits; anything else is NaN. -/
def parseIntJS (s : String) : JsNum :=
  parseSigned (s.toList.dropWhile isWsChar)

/-- Little-endian decimal digits of a natural number, computed with
explicit fuel so that the definition is structurally recursive (and hence
evaluates inside the kernel). -/
def natDecDigits : Nat → Nat → List Nat
  | 0, _ => []
  | _ + 1, 0 => []
  | fuel + 1, n => n % 10 :: natDecDigits fuel (n / 10)

/-- Character for a single decimal digit. -/
def digitCharOf (d : Nat) : Char := Char.ofNat (48 + d)

/-- Big-endian decimal digit characters of a natural number. -/
def natDigitChars (n : Nat) : List Char :=
  ((natDecDigits n n).map digitCharOf).reverse

/-- Embedding of JavaScript `String(n)` for a natural number. -/
def jsStringOfNat (n : Nat) : String :=
  if n = 0 then "0" else String.mk (natDigitChars n)

/-- Embedding of JavaScript `String(n)` for an integer. -/
def jsStringOfInt : Int → String
  | Int.ofNat m => jsStringOfNat m
  | Int.negSucc m => String.mk ('-' :: natDigitChars (m + 1))

/-- Embedding of JavaScript `String(x)` on the reachable numbers. -/
def jsNumToString : JsNum → String
  | JsNum.nan => "NaN"
  | JsNum.int n => jsStringOfInt n

/-- Lookup in the association list embedding the `kv` table. -/
def lookupA : List (String × String) → String → Option String
  | [], _ => none
  | (k2, v) :: rest, k => if k2 = k then some v else lookupA rest k

/-- INSERT OR REPLACE in the association list embedding the `kv` table. -/
def setA : List (String × String) → String → String → List (String × String)
  | [], k, v => [(k, v)]
  | (k2, v2) :: rest, k, v =>
    if k2 = k then (k, v) :: rest else (k2, v2) :: setA rest k v

/-- DELETE in the association list embedding the `kv` table. -/
def removeA : List (String × String) → String → List (String × String)
  | [], _ => []
  | (k2, v2) :: rest, k =>
    if k2 = k then rest else (k2, v2) :: removeA rest k

/-- State of one process invocation: the on-disk `kv` table together with
whether the process-wide lazily-initialized connection is currently open. -/
structure ProcState where
  disk : List (String × String)
  dbOpen : Bool
deriving DecidableEq, Repr

/-- Embedding of `getDb` from `store.ts`: lazily open (create directory and
schema if needed) and return the connection; the table data is unchanged. -/
def getDb (s : ProcState) : ProcState :=
  ProcState.mk s.disk true

/-- Embedding of `kvGet` from `store.ts`. -/
def kvGet (key : String) (s : ProcState) : ProcState × Option String :=
  (getDb s, lookupA (getDb s).disk key)

/-- Embedding of `kvSet` from `store.ts` (INSERT OR REPLACE). -/
def kvSet (key value : String) (s : ProcState) : ProcState :=
  ProcState.mk (setA (getDb s).disk key value) (getDb s).dbOpen

/-- Embedding of `kvDelete` from `store.ts`. -/
def kvDelete (key : String) (s : ProcState) : ProcState :=
  ProcState.mk (removeA (getDb s).disk key) (getDb s).dbOpen

/-- Embedding of `closeStore` from `store.ts`: the connection is released;
the on-disk data is untouched and a later access transparently reopens. -/
def closeStore (s : ProcState) : ProcState :=
  ProcState.mk s.disk false

/-- Key constant `KV_KEYS.LATEST_TIMESTAMP` from `store.ts`. -/
def LATEST_TIMESTAMP : String := "latest_timestamp"

/-- Key constant `KV_KEYS.LAST_SEEN_TIMESTAMP` from `store.ts`. -/
def LAST_SEEN_TIMESTAMP : String := "last_seen_timestamp"

/-- Embedding of `getLatestTimestamp` from `store.ts`: read the raw string
and parse it; absent stays absent. -/
def getLatestTimestamp (s : ProcState) : ProcState × Option JsNum :=
  let r := kvGet LATEST_TIMESTAMP s
  (r.1, r.2.map parseIntJS)

/-- Embedding of `setLatestTimestamp` from `store.ts`. -/
def setLatestTimestamp (ts : JsNum) (s : ProcState) : ProcState :=
  kvSet LATEST_TIMESTAMP (jsNumToString ts) s

/-- Embedding of `getLastSeenTimestamp` from `store.ts`. -/
def getLastSeenTimestamp (s : ProcState) : ProcState × Option JsNum :=
  let r := kvGet LAST_SEEN_TIMESTAMP s
  (r.1, r.2.map parseIntJS)

/-- Embedding of `setLastSeenTimestamp` from `store.ts`. -/
def setLastSeenTimestamp (ts : JsNum) (s : ProcState) : ProcState :=
  kvSet LAST_SEEN_TIMESTAMP (jsNumToString ts) s

/-- Embedding of `updateLastSeenTimestamp` from `store.ts`: write
`createdAt + 1` only when nothing is stored or the new value is strictly
greater. -/
def updateLastSeenTimestamp (createdAt : JsNum) (s : ProcState) : ProcState :=
  let r := getLastSeenTimestamp s
  let next := jsAdd createdAt (JsNum.int 1)
  match r.2 with
  | none => setLastSeenTimestamp next r.1
  | some current =>
    if jsGt next current then setLastSeenTimestamp next r.1 else r.1

/-- Embedding of a relay event as far as the cursor subsystem reads it:
only the `created_at` field (unix seconds) matters. -/
structure VerifiedEvent where
  created_at : Int
deriving DecidableEq, Repr

/-- Maximum `created_at` over a list of events, as computed by
`Math.max(...events.map(e => e.created_at))`; only meaningful for a
non-empty list (the source guards on the length first). -/
def maxCreatedAt (events : List VerifiedEvent) : Int :=
  match events.map (fun e => e.created_at) with
  | [] => 0
  | t :: ts => ts.foldl max t

/-- Embedding of `trackLatestTimestamp` from the current revision of
`src/lib/timestamp.ts`: return on an empty list, otherwise write
`maxCreatedAt + 1` to `last_seen_timestamp` whenever `maxCreatedAt` is
truthy (a non-zero integer).  Note that the source performs no comparison
against the stored value: the write is unconditional. -/
def trackLatestTimestamp (events : List VerifiedEvent) (s : ProcState) : ProcState :=
  if events.length = 0 then s
  else
    let m := maxCreatedAt events
    if m ≠ 0 then setLastSeenTimestamp (JsNum.int (m + 1)) s else s

/-- Embedding of `trackLatestTimestamp` from the legacy first revision
packed in `src/lib/timestamp.ts` (lines 34 to 39): in the legacy
single-value design the write went to `latest_timestamp`. -/
def trackLatestTimestampLegacy (events : List VerifiedEvent) (s : ProcState) : ProcState :=
  if events.length = 0 then s
  else
    let m := maxCreatedAt events
    if m ≠ 0 then setLatestTimestamp (JsNum.int (m + 1)) s else s

/-- Outcome of `resolveTimestampParam`: either a resolved optional bound,
or an error message printed just before `process.exit(1)`. -/
inductive ResolveOutcome where
  | ok (v : Option JsNum) : ResolveOutcome
  | err (msg : String) : ResolveOutcome
deriving DecidableEq, Repr

/-- Error message of the missing-precondition failure in
`resolveTimestampParam`. -/
def noLatestStoredMsg : String :=
  "Error: No latest timestamp stored. Use clawstr timestamp to set one."

/-- Error message of the input-validation failure in
`resolveTimestampParam`. -/
def invalidTimestampMsg (value : String) : String :=
  "Error: Invalid timestamp value " ++ value ++ ". Must be a unix timestamp or latest."

/-- Embedding of `resolveTimestampParam` from the current revision of
`src/lib/timestamp.ts`: absent input stays absent with no store access;
the sentinel string resolves through the store and fails when nothing is
stored; anything else goes through `parseInt(value, 10)` and fails exactly
when that yields NaN. -/
def resolveTimestampParam (value : Option String) (s : ProcState) : ProcState × ResolveOutcome :=
  match value with
  | none => (s, ResolveOutcome.ok none)
  | some v =>
    if v = "latest" then
      let r := getLatestTimestamp s
      match r.2 with
      | none => (r.1, ResolveOutcome.err noLatestStoredMsg)
      | some ts => (r.1, ResolveOutcome.ok (some ts))
    else
      let num := parseIntJS v
      if num = JsNum.nan then (s, ResolveOutcome.err (invalidTimestampMsg v))
      else (s, ResolveOutcome.ok (some num))

/-- Embedding of the `--rollforward` mode of the `timestamp` command
(current revision): `next = lastSeen !== undefined ? lastSeen + 1 : 0`,
written to `latest_timestamp`; `last_seen_timestamp` is not written. -/
def rollForward (s : ProcState) : ProcState :=
  let r := getLastSeenTimestamp s
  let next : JsNum :=
    match r.2 with
    | some lastSeen => jsAdd lastSeen (JsNum.int 1)
    | none => JsNum.int 0
  setLatestTimestamp next r.1

/-- Embedding of the `reset` mode of the legacy `timestamp` command:
both cursors are unconditionally set to 0. -/
def timestampReset (s : ProcState) : ProcState :=
  setLastSeenTimestamp (JsNum.int 0) (setLatestTimestamp (JsNum.int 0) s)

/-- Result of the `--json` inspection mode of the `timestamp` command:
both cursors, with absence kept explicit. -/
structure TimestampStatus where
  latest : Option JsNum
  lastSeen : Option JsNum
deriving DecidableEq, Repr

/-- Embedding of the `--json` inspection mode of the `timestamp` command:
a pure read of both cursors. -/
def inspectTimestamps (s : ProcState) : ProcState × TimestampStatus :=
  let r1 := getLatestTimestamp s
  let r2 := getLastSeenTimestamp r1.1
  (r2.1, TimestampStatus.mk r1.2 r2.2)

/-- Exit behaviour of one command invocation. -/
inductive CmdOutcome where
  | ok : CmdOutcome
  | exitErr : CmdOutcome
deriving DecidableEq, Repr

/-- Embedding of the cursor-relevant part of `notificationsCommand`: the
transport result is passed in (`Except.error` embeds a thrown transport
error); on success `trackLatestTimestamp` runs unconditionally, on a
thrown error the catch block exits non-zero without touching the cursor. -/
def notificationsCommand (queryResult : Except String (List VerifiedEvent))
    (s : ProcState) : ProcState × CmdOutcome :=
  match queryResult with
  | Except.error _ => (s, CmdOutcome.exitErr)
  | Except.ok events => (trackLatestTimestamp events s, CmdOutcome.ok)

/-- Embedding of the cursor-relevant part of `showSubclawFeed` (the feed
branch of the `show` command): same integration shape as notifications. -/
def showSubclawFeed (queryResult : Except String (List VerifiedEvent))
    (s : ProcState) : ProcState × CmdOutcome :=
  match queryResult with
  | Except.error _ => (s, CmdOutcome.exitErr)
  | Except.ok events => (trackLatestTimestamp events s, CmdOutcome.ok)

/-- Embedding of the cursor-relevant part of `searchCommand`: same
integration shape as notifications. -/
def searchCommand (queryResult : Except String (List VerifiedEvent))
    (s : ProcState) : ProcState × CmdOutcome :=
  match queryResult with
  | Except.error _ => (s, CmdOutcome.exitErr)
  | Except.ok events => (trackLatestTimestamp events s, CmdOutcome.ok)

/-- Embedding of the cursor-relevant part of `recentCommand`: unlike the
other three polling commands, the call to `trackLatestTimestamp` is gated
on the `sinceLatest` option (`if (options.sinceLatest) trackLatestTimestamp(events)`). -/
def recentCommand (sinceLatest : Bool) (queryResult : Except String (List VerifiedEvent))
    (s : ProcState) : ProcState × CmdOutcome :=
  match queryResult with
  | Except.error _ => (s, CmdOutcome.exitErr)
  | Except.ok events =>
    ((if sinceLatest then trackLatestTimestamp events s else s), CmdOutcome.ok)


theorem lookupA_setA_self (l : List (String × String)) (k v : String) :
    lookupA (setA l k v) k = some v := by
  induction l with
  | nil => simp [setA, lookupA]
  | cons hd tl ih =>
    obtain ⟨k2, v2⟩ := hd
    by_cases h : k2 = k
    · simp [setA, h, lookupA]
    · simp [setA, h, lookupA, ih]

theorem lookupA_setA_ne (l : List (String × String)) (k k2 v : String)
    (h : k ≠ k2) : lookupA (setA l k v) k2 = lookupA l k2 := by
  induction l with
  | nil => simp [setA, lookupA, h]
  | cons hd tl ih =>
    obtain ⟨ka, va⟩ := hd
    by_cases ha : ka = k
    · subst ha
      simp [setA, lookupA, h]
    · simp [setA, ha, lookupA, ih]

theorem natDecDigits_eq_digits :
    ∀ fuel n : Nat, n ≤ fuel → natDecDigits fuel n = Nat.digits 10 n := by
  intro fuel
  induction fuel with
  | zero =>
    intro n hn
    have : n = 0 := Nat.le_zero.mp hn
    subst this
    simp [natDecDigits]
  | succ fuel ih =>
    intro n hn
    match n with
    | 0 => simp [natDecDigits]
    | k + 1 =>
      have hdiv : (k + 1) / 10 ≤ fuel := by
        have := Nat.div_lt_self (Nat.succ_pos k) (by norm_num : 1 < 10)
        omega
      rw [show natDecDigits (fuel + 1) (k + 1)
            = (k + 1) % 10 :: natDecDigits fuel ((k + 1) / 10) from rfl]
      rw [ih _ hdiv, Nat.digits_def' (by norm_num : (1:ℕ) < 10) (Nat.succ_pos k)]

theorem digitCharOf_isDigit : ∀ d : Nat, d < 10 → (digitCharOf d).isDigit = true := by
  decide

theorem digitCharOf_toNat : ∀ d : Nat, d < 10 → (digitCharOf d).toNat - 48 = d := by
  decide

theorem digit_ne_minus (c : Char) (hc : c.isDigit = true) : ¬(c = '-') := by
  intro h
  subst h
  exact absurd hc (by decide)

theorem digit_ne_plus (c : Char) (hc : c.isDigit = true) : ¬(c = '+') := by
  intro h
  subst h
  exact absurd hc (by decide)

theorem digit_not_ws (c : Char) (hc : c.isDigit = true) : isWsChar c = false := by
  cases hws : isWsChar c with
  | false => rfl
  | true =>
    exfalso
    unfold isWsChar at hws
    simp only [Bool.or_eq_true, decide_eq_true_eq, or_assoc] at hws
    rcases hws with h|h|h|h|h|h|h|h <;> subst h <;> exact absurd hc (by decide)

theorem digitsToNat_append (ds : List Char) (c : Char) :
    digitsToNat (ds ++ [c]) = digitsToNat ds * 10 + (c.toNat - 48) := by
  simp [digitsToNat, List.foldl_append]

theorem digitsToNat_rev_map (L : List Nat) (h : ∀ d ∈ L, d < 10) :
    digitsToNat ((L.map digitCharOf).reverse) = Nat.ofDigits 10 L := by
  induction L with
  | nil => simp [digitsToNat, Nat.ofDigits_nil]
  | cons d T ih =>
    have hd : d < 10 := h d (by simp)
    have hT : ∀ x ∈ T, x < 10 := fun x hx => h x (by simp [hx])
    simp only [List.map_cons, List.reverse_cons]
    rw [digitsToNat_append, ih hT, digitCharOf_toNat d hd, Nat.ofDigits_cons]
    omega

theorem natDigitChars_mem_isDigit (n : Nat) (c : Char) (hc : c ∈ natDigitChars n) :
    c.isDigit = true := by
  unfold natDigitChars at hc
  rw [List.mem_reverse, List.mem_map] at hc
  obtain ⟨d, hd, rfl⟩ := hc
  rw [natDecDigits_eq_digits n n le_rfl] at hd
  exact digitCharOf_isDigit d (Nat.digits_lt_base (by norm_num) hd)

theorem takeWhile_eq_self_of_all {p : Char → Bool} :
    ∀ l : List Char, (∀ c ∈ l, p c = true) → l.takeWhile p = l := by
  intro l h
  induction l with
  | nil => rfl
  | cons c cs ih =>
    have hc : p c = true := h c (by simp)
    simp only [List.takeWhile_cons, hc, if_true]
    rw [ih (fun x hx => h x (by simp [hx]))]

theorem parseDigits_all (cs : List Char) (hne : cs ≠ [])
    (h : ∀ c ∈ cs, c.isDigit = true) :
    parseDigits cs = JsNum.int (Int.ofNat (digitsToNat cs)) := by
  unfold parseDigits
  rw [takeWhile_eq_self_of_all cs h]
  cases cs with
  | nil => exact absurd rfl hne
  | cons c rest => rfl

theorem natDigitChars_ne_nil (n : Nat) (hn : n ≠ 0) : natDigitChars n ≠ [] := by
  unfold natDigitChars
  simp only [ne_eq, List.reverse_eq_nil_iff, List.map_eq_nil_iff]
  rw [natDecDigits_eq_digits n n le_rfl]
  exact Nat.digits_ne_nil_iff_ne_zero.mpr hn

theorem digitsToNat_natDigitChars (n : Nat) :
    digitsToNat (natDigitChars n) = n := by
  unfold natDigitChars
  rw [natDecDigits_eq_digits n n le_rfl]
  rw [digitsToNat_rev_map _ (fun d hd => Nat.digits_lt_base (by norm_num) hd)]
  exact Nat.ofDigits_digits 10 n

theorem parseIntJS_natDigitChars (n : Nat) (hn : n ≠ 0) :
    parseIntJS (String.mk (natDigitChars n)) = JsNum.int (Int.ofNat n) := by
  have hdig : ∀ c ∈ natDigitChars n, c.isDigit = true :=
    fun c hc => natDigitChars_mem_isDigit n c hc
  have hne : natDigitChars n ≠ [] := natDigitChars_ne_nil n hn
  obtain ⟨c, cs, hcons⟩ : ∃ c cs, natDigitChars n = c :: cs := by
    cases hl : natDigitChars n with
    | nil => exact absurd hl hne
    | cons c cs => exact ⟨c, cs, rfl⟩
  have hc : c.isDigit = true := hdig c (by rw [hcons]; simp)
  unfold parseIntJS
  rw [show (String.mk (natDigitChars n)).toList = natDigitChars n from rfl, hcons]
  rw [List.dropWhile_cons, digit_not_ws c hc]
  simp only [Bool.false_eq_true, if_false]
  simp only [parseSigned]
  rw [if_neg (digit_ne_minus c hc), if_neg (digit_ne_plus c hc)]
  rw [parseDigits_all (c :: cs) (by simp) (by rw [← hcons]; exact hdig)]
  rw [← hcons, digitsToNat_natDigitChars]

theorem parseIntJS_jsStringOfInt (n : Int) :
    parseIntJS (jsStringOfInt n) = JsNum.int n := by
  match n with
  | Int.ofNat m =>
    by_cases hm : m = 0
    · subst hm; decide
    · show parseIntJS (jsStringOfNat m) = JsNum.int (Int.ofNat m)
      unfold jsStringOfNat
      rw [if_neg hm]
      exact parseIntJS_natDigitChars m hm
  | Int.negSucc m =>
    show parseIntJS (String.mk ('-' :: natDigitChars (m + 1)))
        = JsNum.int (Int.negSucc m)
    unfold parseIntJS
    rw [show (String.mk ('-' :: natDigitChars (m + 1))).toList
          = '-' :: natDigitChars (m + 1) from rfl]
    rw [List.dropWhile_cons]
    rw [show isWsChar '-' = false from by decide]
    simp only [Bool.false_eq_true, if_false]
    simp only [parseSigned]
    simp only [if_true]
    rw [parseDigits_all (natDigitChars (m + 1)) (natDigitChars_ne_nil (m + 1) (Nat.succ_ne_zero m))
      (fun c hc => natDigitChars_mem_isDigit (m + 1) c hc)]
    rw [digitsToNat_natDigitChars]
    rfl

theorem disk_getDb (s : ProcState) : (getDb s).disk = s.disk := rfl

theorem disk_closeStore (s : ProcState) : (closeStore s).disk = s.disk := rfl

theorem disk_kvSet (k v : String) (s : ProcState) :
    (kvSet k v s).disk = setA s.disk k v := rfl

theorem disk_setLatestTimestamp (ts : JsNum) (s : ProcState) :
    (setLatestTimestamp ts s).disk = setA s.disk LATEST_TIMESTAMP (jsNumToString ts) := rfl

theorem disk_setLastSeenTimestamp (ts : JsNum) (s : ProcState) :
    (setLastSeenTimestamp ts s).disk = setA s.disk LAST_SEEN_TIMESTAMP (jsNumToString ts) := rfl

theorem getLatestTimestamp_eq (s : ProcState) :
    getLatestTimestamp s = (getDb s, (lookupA s.disk LATEST_TIMESTAMP).map parseIntJS) := rfl

theorem getLastSeenTimestamp_eq (s : ProcState) :
    getLastSeenTimestamp s = (getDb s, (lookupA s.disk LAST_SEEN_TIMESTAMP).map parseIntJS) := rfl

theorem keys_ne : LATEST_TIMESTAMP ≠ LAST_SEEN_TIMESTAMP := by decide

theorem inspect_latest (s : ProcState) :
    (inspectTimestamps s).2.latest = (getLatestTimestamp s).2 := rfl

theorem inspect_lastSeen (s : ProcState) :
    (inspectTimestamps s).2.lastSeen = (lookupA s.disk LAST_SEEN_TIMESTAMP).map parseIntJS := rfl

theorem parseIntJS_zero : parseIntJS "0" = JsNum.int 0 := by decide

theorem jsNumToString_int (n : Int) : jsNumToString (JsNum.int n) = jsStringOfInt n := rfl

/-- C9: `resolveTimestampParam` on an absent argument returns absent,
leaves the state untouched (in particular it never opens, reads or writes
the store), and does not fail, for every store state. -/
theorem resolveTimestampParam_none (s : ProcState) :
    resolveTimestampParam none s = (s, ResolveOutcome.ok none) := rfl

/-- C2: `trackLatestTimestamp` never writes the `latest` cursor entry: for
every input event sequence and every store state, the `latest_timestamp`
entry after the call is exactly what it was before the call. -/
theorem trackLatestTimestamp_preserves_latest (events : List VerifiedEvent) (s : ProcState) :
    lookupA (trackLatestTimestamp events s).disk LATEST_TIMESTAMP
      = lookupA s.disk LATEST_TIMESTAMP := by
  unfold trackLatestTimestamp
  by_cases h0 : events.length = 0
  · rw [if_pos h0]
  · rw [if_neg h0]
    by_cases hm : maxCreatedAt events ≠ 0
    · rw [if_pos hm]
      rw [disk_setLastSeenTimestamp, lookupA_setA_ne _ _ _ _ (Ne.symm keys_ne)]
    · rw [if_neg hm]

/-- C10: on a non-empty batch whose maximum timestamp is 0 (a falsy value
in the source's truthiness guard), `trackLatestTimestamp` leaves the whole
state unchanged, whatever is currently stored. -/
theorem trackLatestTimestamp_zero_max_noop (events : List VerifiedEvent) (s : ProcState)
    (hne : events ≠ []) (hmax : maxCreatedAt events = 0) :
    trackLatestTimestamp events s = s := by
  unfold trackLatestTimestamp
  have h0 : ¬(events.length = 0) := by
    intro h
    exact hne (List.length_eq_zero.mp h)
  rw [if_neg h0]
  simp [hmax]

/-- C10 witness: a single event at timestamp 0 over the empty store. -/
theorem trackLatestTimestamp_zero_max_noop_witness :
    trackLatestTimestamp [VerifiedEvent.mk 0] (ProcState.mk [] false)
      = ProcState.mk [] false :=
  trackLatestTimestamp_zero_max_noop [VerifiedEvent.mk 0] (ProcState.mk [] false)
    (by decide) (by decide)

/-- C1: the claim fails on the code: `trackLatestTimestamp` performs no
comparison against the stored watermark, so a batch whose maximum
timestamp (1700000005) is older than the stored `last_seen` (1700000021)
overwrites the watermark with the smaller value 1700000006 — the very
scenario the repository's own unit test expects to leave 1700000021 in
place. -/
theorem trackLatestTimestamp_regresses_watermark :
    lookupA (trackLatestTimestamp [VerifiedEvent.mk 1700000005]
        (ProcState.mk [(LAST_SEEN_TIMESTAMP, "1700000021")] true)).disk
      LAST_SEEN_TIMESTAMP = some "1700000006" ∧ (1700000006 : Int) < 1700000021 := by
  constructor
  · decide
  · decide

/-- C4: the claim fails on the code: `recentCommand` without its
`sinceLatest` option leaves the store untouched even on a successful,
non-empty result — although `trackLatestTimestamp` on the same result
would have advanced the watermark (to "1700000001" here). -/
theorem recentCommand_skips_advance :
    recentCommand false (Except.ok [VerifiedEvent.mk 1700000000]) (ProcState.mk [] false)
        = (ProcState.mk [] false, CmdOutcome.ok) ∧
      lookupA (trackLatestTimestamp [VerifiedEvent.mk 1700000000]
          (ProcState.mk [] false)).disk LAST_SEEN_TIMESTAMP = some "1700000001" := by
  constructor
  · rfl
  · decide

/-- C4 amended: notifications, the show subclaw feed and search call
`trackLatestTimestamp` unconditionally on every non-error transport result
(even an empty one); `recentCommand` does so only when its `sinceLatest`
option is set; and on a thrown transport error every polling command exits
non-zero without calling `trackLatestTimestamp`. -/
theorem pollingCommands_advance_policy (s : ProcState) (events : List VerifiedEvent)
    (msg : String) :
    notificationsCommand (Except.ok events) s = (trackLatestTimestamp events s, CmdOutcome.ok) ∧
    showSubclawFeed (Except.ok events) s = (trackLatestTimestamp events s, CmdOutcome.ok) ∧
    searchCommand (Except.ok events) s = (trackLatestTimestamp events s, CmdOutcome.ok) ∧
    recentCommand true (Except.ok events) s = (trackLatestTimestamp events s, CmdOutcome.ok) ∧
    recentCommand false (Except.ok events) s = (s, CmdOutcome.ok) ∧
    notificationsCommand (Except.error msg) s = (s, CmdOutcome.exitErr) ∧
    showSubclawFeed (Except.error msg) s = (s, CmdOutcome.exitErr) ∧
    searchCommand (Except.error msg) s = (s, CmdOutcome.exitErr) ∧
    recentCommand true (Except.error msg) s = (s, CmdOutcome.exitErr) ∧
    recentCommand false (Except.error msg) s = (s, CmdOutcome.exitErr) :=
  ⟨rfl, rfl, rfl, rfl, rfl, rfl, rfl, rfl, rfl, rfl⟩

/-- C3: the claim fails on the code: "12abc" is neither a decimal-integer
literal nor the sentinel, yet `resolveTimestampParam` does not raise the
input-validation error — `parseInt("12abc", 10)` parses the longest digit
prefix and the call returns 12. -/
theorem resolveTimestampParam_accepts_nonliteral :
    resolveTimestampParam (some "12abc") (ProcState.mk [] false)
      = (ProcState.mk [] false, ResolveOutcome.ok (some (JsNum.int 12))) := by
  decide

/-- C3 amended: for a present argument other than the sentinel "latest",
`resolveTimestampParam` raises the input-validation error exactly when
`parseInt(value, 10)` yields NaN — that is, when after optional leading
whitespace and an optional sign there is no leading decimal digit, which
covers the empty string and whitespace-only strings — and otherwise
returns the integer value of the longest leading digit run (so exact
decimal-integer literals are returned as their parsed integer, but so are
strings with trailing garbage); the store state is untouched either way. -/
theorem resolveTimestampParam_nonlatest (s : ProcState) (v : String)
    (hv : ¬(v = "latest")) :
    (parseIntJS v = JsNum.nan →
      resolveTimestampParam (some v) s = (s, ResolveOutcome.err (invalidTimestampMsg v))) ∧
    (∀ n : Int, parseIntJS v = JsNum.int n →
      resolveTimestampParam (some v) s = (s, ResolveOutcome.ok (some (JsNum.int n)))) := by
  constructor
  · intro hnan
    simp only [resolveTimestampParam]
    rw [if_neg hv]
    simp [hnan]
  · intro n hn
    simp only [resolveTimestampParam]
    rw [if_neg hv]
    simp only [hn]
    rw [if_neg (by intro h; exact JsNum.noConfusion h)]

/-- C3 witness: the empty string is rejected with the input-validation
error. -/
theorem resolveTimestampParam_nonlatest_witness :
    resolveTimestampParam (some "") (ProcState.mk [] false)
      = (ProcState.mk [] false, ResolveOutcome.err (invalidTimestampMsg "")) :=
  (resolveTimestampParam_nonlatest (ProcState.mk [] false) "" (by decide)).1 (by decide)

theorem getLatest_snd (t : ProcState) :
    (getLatestTimestamp t).2 = (lookupA t.disk LATEST_TIMESTAMP).map parseIntJS := rfl

theorem getLatest_fst (t : ProcState) : (getLatestTimestamp t).1 = getDb t := rfl

theorem getLastSeen_snd (t : ProcState) :
    (getLastSeenTimestamp t).2 = (lookupA t.disk LAST_SEEN_TIMESTAMP).map parseIntJS := rfl

theorem inspectTimestamps_eq (t : ProcState) :
    inspectTimestamps t = (getDb (getDb t),
      TimestampStatus.mk ((lookupA t.disk LATEST_TIMESTAMP).map parseIntJS)
        ((lookupA t.disk LAST_SEEN_TIMESTAMP).map parseIntJS)) := rfl

theorem rollForward_eq (s : ProcState) :
    rollForward s = setLatestTimestamp
      (match (lookupA s.disk LAST_SEEN_TIMESTAMP).map parseIntJS with
        | some lastSeen => jsAdd lastSeen (JsNum.int 1)
        | none => JsNum.int 0) (getDb s) := rfl

/-- C6: resolving the sentinel "latest" fails with the missing-precondition
error when nothing is stored under `latest_timestamp` (the command exits
rather than silently omitting the bound), and returns exactly the stored
integer when one is stored. -/
theorem resolveLatest_requires_stored (s : ProcState) :
    (lookupA s.disk LATEST_TIMESTAMP = none →
      resolveTimestampParam (some "latest") s
        = (getDb s, ResolveOutcome.err noLatestStoredMsg)) ∧
    (∀ n : Int, lookupA s.disk LATEST_TIMESTAMP = some (jsStringOfInt n) →
      resolveTimestampParam (some "latest") s
        = (getDb s, ResolveOutcome.ok (some (JsNum.int n)))) := by
  constructor
  · intro habs
    simp only [resolveTimestampParam, if_true]
    simp only [getLatest_snd, getLatest_fst, habs, Option.map_none']
  · intro n hsome
    simp only [resolveTimestampParam, if_true]
    simp only [getLatest_snd, getLatest_fst, hsome, Option.map_some']
    rw [parseIntJS_jsStringOfInt]

/-- C6 witness: the empty store rejects the sentinel; a store holding
1700000000 resolves the sentinel to exactly that integer. -/
theorem resolveLatest_requires_stored_witness :
    resolveTimestampParam (some "latest") (ProcState.mk [] false)
        = (getDb (ProcState.mk [] false), ResolveOutcome.err noLatestStoredMsg) ∧
      resolveTimestampParam (some "latest")
          (ProcState.mk [(LATEST_TIMESTAMP, "1700000000")] true)
        = (getDb (ProcState.mk [(LATEST_TIMESTAMP, "1700000000")] true),
            ResolveOutcome.ok (some (JsNum.int 1700000000))) :=
  ⟨(resolveLatest_requires_stored (ProcState.mk [] false)).1 (by decide),
   (resolveLatest_requires_stored (ProcState.mk [(LATEST_TIMESTAMP, "1700000000")] true)).2
     1700000000 (by decide)⟩

/-- C7: `setLatestTimestamp n` followed by inspection returns exactly `n`
under `latest`, and the value survives releasing the connection and
transparently reopening (`closeStore` keeps the on-disk table intact and
the next read reopens), for every integer and every prior store state. -/
theorem setLatest_inspect_roundtrip (s : ProcState) (n : Int) :
    (inspectTimestamps (setLatestTimestamp (JsNum.int n) s)).2.latest
        = some (JsNum.int n) ∧
      (inspectTimestamps (closeStore (setLatestTimestamp (JsNum.int n) s))).2.latest
        = some (JsNum.int n) := by
  have key : ∀ t : ProcState,
      t.disk = setA s.disk LATEST_TIMESTAMP (jsStringOfInt n) →
      (inspectTimestamps t).2.latest = some (JsNum.int n) := by
    intro t ht
    rw [inspectTimestamps_eq]
    show (lookupA t.disk LATEST_TIMESTAMP).map parseIntJS = some (JsNum.int n)
    rw [ht, lookupA_setA_self]
    show some (parseIntJS (jsStringOfInt n)) = some (JsNum.int n)
    rw [parseIntJS_jsStringOfInt]
  exact ⟨key _ rfl, key _ rfl⟩

/-- C8: `reset` unconditionally stores 0 under both cursors, whatever the
prior state: a subsequent inspection reports both values present and equal
to 0. -/
theorem reset_inspect_zero (s : ProcState) :
    (inspectTimestamps (timestampReset s)).2
      = TimestampStatus.mk (some (JsNum.int 0)) (some (JsNum.int 0)) := by
  rw [inspectTimestamps_eq]
  show TimestampStatus.mk
      ((lookupA (timestampReset s).disk LATEST_TIMESTAMP).map parseIntJS)
      ((lookupA (timestampReset s).disk LAST_SEEN_TIMESTAMP).map parseIntJS) = _
  have hD : (timestampReset s).disk
      = setA (setA s.disk LATEST_TIMESTAMP "0") LAST_SEEN_TIMESTAMP "0" := rfl
  rw [hD, lookupA_setA_self, lookupA_setA_ne _ _ _ _ (Ne.symm keys_ne),
    lookupA_setA_self]
  decide

/-- C5: the claim fails on the code: with no stored `last_seen`,
`rollForward` stores 0 under `latest` (the source computes
`lastSeen !== undefined ? lastSeen + 1 : 0`), not the 1 that the claimed
`(absent ? 0 : last_seen) + 1` formula would give. -/
theorem rollForward_absent_not_one :
    lookupA (rollForward (ProcState.mk [] false)).disk LATEST_TIMESTAMP = some "0" ∧
      ¬ lookupA (rollForward (ProcState.mk [] false)).disk LATEST_TIMESTAMP = some "1" := by
  constructor
  · decide
  · decide

/-- C5 amended: `rollForward` stores under `latest` the value
`last_seen + 1` when a `last_seen` watermark is stored and 0 when none is
(not 1), and it never writes `last_seen` itself. -/
theorem rollForward_amended (s : ProcState) :
    (lookupA s.disk LAST_SEEN_TIMESTAMP = none →
      lookupA (rollForward s).disk LATEST_TIMESTAMP = some (jsStringOfInt 0)) ∧
    (∀ m : Int, lookupA s.disk LAST_SEEN_TIMESTAMP = some (jsStringOfInt m) →
      lookupA (rollForward s).disk LATEST_TIMESTAMP = some (jsStringOfInt (m + 1))) ∧
    lookupA (rollForward s).disk LAST_SEEN_TIMESTAMP
      = lookupA s.disk LAST_SEEN_TIMESTAMP := by
  refine ⟨?_, ?_, ?_⟩
  · intro habs
    rw [rollForward_eq, habs]
    show lookupA (setLatestTimestamp (JsNum.int 0) (getDb s)).disk LATEST_TIMESTAMP
      = some (jsStringOfInt 0)
    rw [disk_setLatestTimestamp, lookupA_setA_self]
    rfl
  · intro m hm
    rw [rollForward_eq, hm]
    show lookupA (setLatestTimestamp
        (jsAdd (parseIntJS (jsStringOfInt m)) (JsNum.int 1)) (getDb s)).disk
        LATEST_TIMESTAMP = some (jsStringOfInt (m + 1))
    rw [parseIntJS_jsStringOfInt]
    show lookupA (setLatestTimestamp (JsNum.int (m + 1)) (getDb s)).disk
        LATEST_TIMESTAMP = some (jsStringOfInt (m + 1))
    rw [disk_setLatestTimestamp, lookupA_setA_self]
    rfl
  · rw [rollForward_eq, disk_setLatestTimestamp,
      lookupA_setA_ne _ _ _ _ keys_ne, disk_getDb]

/-- C5 amended witness: rolling forward over a stored watermark of 41
promotes 42 into `latest`; rolling forward over the empty store stores 0. -/
theorem rollForward_amended_witness :
    lookupA (rollForward (ProcState.mk [(LAST_SEEN_TIMESTAMP, "41")] true)).disk
        LATEST_TIMESTAMP = some (jsStringOfInt 42) ∧
      lookupA (rollForward (ProcState.mk [] false)).disk LATEST_TIMESTAMP
        = some (jsStringOfInt 0) :=
  ⟨(rollForward_amended (ProcState.mk [(LAST_SEEN_TIMESTAMP, "41")] true)).2.1
      41 (by decide),
   (rollForward_amended (ProcState.mk [] false)).1 (by decide)⟩
